import Mathlib

/-!
Shallow embedding of `src/main.py` (translator_agent).

The program wraps one remote text-generation call:
`get_translation(text, source_lang, target_lang)` composes the prompt
`f"Translate from {source_lang} to {target_lang}: {text}"`, runs the
translation agent on it, and returns its structured output; any exception
is caught and replaced by a fixed fallback `TranslationResponse`
(after `st.error(...)` is shown).  The UI then appends the user input and
`f"As Abdul Qadeer Trained Me The Translation Of This Line Will Be:
{response.translated_text}"` to the session chat history.

The remote capability (agent + Gemini endpoint) is modelled as an abstract
function from the prompt string to `Except String TranslationResponse`:
`Except.error e` stands for a raised exception with message `e`, and
`Except.ok r` for a successful structured response.  Python exceptions in
`Runner.run` become the `error` branch; the `st.error` display surface is
modelled, where relevant, as an explicit error-log list threaded through
`get_translation_st`.
-/

namespace Translator

/-- The Pydantic model `TranslationResponse` of src/main.py lines 20-24:
four required `str` fields (Pydantic rejects `null` for `str`, so in the
embedding each field is a total `String`). -/
structure TranslationResponse where
  source_language : String
  target_language : String
  translated_text : String
  original_text : String
deriving Repr, DecidableEq

/-- The remote capability: the translation agent run over the network.
Given the user prompt it either returns a structured response or raises
(an `Except.error` with the exception text). -/
def Remote : Type := String → Except String TranslationResponse

/-- The prompt composed at src/main.py line 53:
`query = f"Translate from {source_lang} to {target_lang}: {text}"`. -/
def query (source_lang target_lang text : String) : String :=
  "Translate from " ++ source_lang ++ " to " ++ target_lang ++ ": " ++ text

/-- The fixed apology string of src/main.py line 61. -/
def apology : String :=
  "Sorry, an error occurred during translation. Please try again."

/-- The fallback `TranslationResponse` built in the `except` branch,
src/main.py lines 58-63. -/
def fallback_response (text source_lang target_lang : String) :
    TranslationResponse :=
  { source_language := source_lang
    target_language := target_lang
    translated_text := apology
    original_text := text }

/-- `get_translation` of src/main.py lines 51-63: compose the query, run
the agent, return its `final_output`; on any exception return the
fallback record instead. -/
def get_translation (remote : Remote) (text source_lang target_lang : String) :
    TranslationResponse :=
  match remote (query source_lang target_lang text) with
  | Except.ok result => result
  | Except.error _ => fallback_response text source_lang target_lang

/-- `get_translation` instrumented with the list of prompts sent to the
remote capability (exactly one call is issued per invocation, line 54). -/
def get_translation_tr (remote : Remote) (text source_lang target_lang : String) :
    TranslationResponse × List String :=
  let q := query source_lang target_lang text
  match remote q with
  | Except.ok result => (result, [q])
  | Except.error _ => (fallback_response text source_lang target_lang, [q])

/-- `get_translation` with the `st.error` display surface made explicit:
the error log is the only state the function touches, and it is only ever
appended to (src/main.py line 57). -/
def get_translation_st (remote : Remote) (text source_lang target_lang : String)
    (errlog : List String) : TranslationResponse × List String :=
  match remote (query source_lang target_lang text) with
  | Except.ok result => (result, errlog)
  | Except.error e =>
      (fallback_response text source_lang target_lang,
       errlog ++ ["Error during translation: " ++ e])

/-- The supported-language list of src/main.py lines 222-226, consulted
only by the two `st.selectbox` UI selectors. -/
def languages : List String :=
  ["English", "Spanish", "French", "German", "Chinese", "Japanese",
   "Russian", "Arabic", "Hindi", "Urdu", "Portuguese", "Italian",
   "Dutch", "Korean", "Turkish", "Swedish", "Polish"]

/-- One entry of `st.session_state.chat_history`: a `{"role": ..,
"content": ..}` dict. -/
structure ChatMessage where
  role : String
  content : String
deriving Repr, DecidableEq

/-- The fixed attribution text prepended by the display layer
(src/main.py line 293). -/
def attributionText : String :=
  "As Abdul Qadeer Trained Me The Translation Of This Line Will Be: "

/-- `formatted_response` of src/main.py line 293:
`f"As Abdul Qadeer Trained Me The Translation Of This Line Will Be:
{response.translated_text}"`. -/
def formatted_response (response : TranslationResponse) : String :=
  attributionText ++ response.translated_text

/-- The submission block of src/main.py lines 284-296: append the user
message, run `get_translation`, append the formatted assistant message. -/
def process_submission (remote : Remote) (chat_history : List ChatMessage)
    (user_input source_lang target_lang : String) : List ChatMessage :=
  let history1 := chat_history ++ [{ role := "user", content := user_input }]
  let response := get_translation remote user_input source_lang target_lang
  history1 ++ [{ role := "assistant", content := formatted_response response }]

end Translator

namespace Translator

/-- C1: when the remote call raises, `get_translation` does not propagate
the error: it returns the record with `source_language = source_lang`,
`target_language = target_lang`, `original_text = text` and
`translated_text` the fixed apology string. -/
theorem get_translation_error_fallback (remote : Remote)
    (text source_lang target_lang e : String)
    (h : remote (query source_lang target_lang text) = Except.error e) :
    (get_translation remote text source_lang target_lang).source_language
        = source_lang ∧
    (get_translation remote text source_lang target_lang).target_language
        = target_lang ∧
    (get_translation remote text source_lang target_lang).original_text
        = text ∧
    (get_translation remote text source_lang target_lang).translated_text
        = "Sorry, an error occurred during translation. Please try again." := by
  simp [get_translation, h, fallback_response, apology]

/-- Witness for C1 at a concrete always-raising remote. -/
theorem get_translation_error_fallback_witness :
    (get_translation (fun _ => Except.error "boom") "hi" "English" "French").source_language
        = "English" ∧
    (get_translation (fun _ => Except.error "boom") "hi" "English" "French").target_language
        = "French" ∧
    (get_translation (fun _ => Except.error "boom") "hi" "English" "French").original_text
        = "hi" ∧
    (get_translation (fun _ => Except.error "boom") "hi" "English" "French").translated_text
        = "Sorry, an error occurred during translation. Please try again." :=
  get_translation_error_fallback (fun _ => Except.error "boom")
    "hi" "English" "French" "boom" rfl

/-- C2 counterexample: the claim `original_text == text` fails on the
success path, because `get_translation` returns the remote record
unmodified: a remote that answers with `original_text = "not_the_text"`
makes `get_translation` return `"not_the_text"`, not the input `"hello"`. -/
theorem original_text_not_input_counterexample :
    (get_translation
        (fun _ => Except.ok
          { source_language := "L1", target_language := "L2",
            translated_text := "tt", original_text := "not_the_text" })
        "hello" "English" "French").original_text ≠ "hello" := by
  simp [get_translation]

/-- C2 (amended): `original_text = text` holds on the failure path
unconditionally, and on the success path whenever the remote response
echoes the original text back; the code itself never rewrites the field. -/
theorem original_text_echo (remote : Remote) (text source_lang target_lang : String)
    (hecho : ∀ r, remote (query source_lang target_lang text) = Except.ok r →
        r.original_text = text) :
    (get_translation remote text source_lang target_lang).original_text = text := by
  unfold get_translation
  cases h : remote (query source_lang target_lang text) with
  | ok r => simpa using hecho r h
  | error e => simp [fallback_response]

/-- Witness for C2 (amended) at a concrete echoing remote and at a
concrete raising remote. -/
theorem original_text_echo_witness :
    (get_translation
        (fun _ => Except.ok
          { source_language := "English", target_language := "French",
            translated_text := "Bonjour", original_text := "Hello" })
        "Hello" "English" "French").original_text = "Hello" ∧
    (get_translation (fun _ => Except.error "down")
        "Hello" "English" "French").original_text = "Hello" :=
  ⟨original_text_echo _ "Hello" "English" "French"
      (fun r h => by cases h; rfl),
   original_text_echo _ "Hello" "English" "French"
      (fun r h => by cases h)⟩

/-- C3: the prompt sent to the remote capability is exactly
`"Translate from {source_lang} to {target_lang}: {text}"`, and the triple
`("Hello", "English", "French")` yields
`"Translate from English to French: Hello"`. -/
theorem query_exact :
    (∀ source_lang target_lang text : String,
        query source_lang target_lang text
          = "Translate from " ++ source_lang ++ " to " ++ target_lang
              ++ ": " ++ text) ∧
    query "English" "French" "Hello" = "Translate from English to French: Hello" :=
  ⟨fun _ _ _ => rfl, by decide⟩

/-- C4: on remote success, `get_translation` returns the remote record
unmodified. -/
theorem get_translation_success_passthrough (remote : Remote)
    (text source_lang target_lang : String) (r : TranslationResponse)
    (h : remote (query source_lang target_lang text) = Except.ok r) :
    get_translation remote text source_lang target_lang = r := by
  simp [get_translation, h]

/-- Witness for C4 at a concrete succeeding remote. -/
theorem get_translation_success_passthrough_witness :
    get_translation
        (fun _ => Except.ok
          { source_language := "English", target_language := "Spanish",
            translated_text := "perro", original_text := "dog" })
        "dog" "English" "Spanish"
      = { source_language := "English", target_language := "Spanish",
          translated_text := "perro", original_text := "dog" } :=
  get_translation_success_passthrough _ "dog" "English" "Spanish" _ rfl

/-- C5: every `TranslationResponse` carries four total `String` fields
(the embedding of the Pydantic model makes null impossible), and on the
fallback path `translated_text` is the apology string, which is not
empty. -/
theorem fallback_translated_text_nonempty (remote : Remote)
    (text source_lang target_lang e : String)
    (h : remote (query source_lang target_lang text) = Except.error e) :
    (get_translation remote text source_lang target_lang).translated_text = apology ∧
    (get_translation remote text source_lang target_lang).translated_text ≠ "" := by
  refine ⟨by simp [get_translation, h, fallback_response], ?_⟩
  simp [get_translation, h, fallback_response]
  decide

/-- Witness for C5 at a concrete raising remote. -/
theorem fallback_translated_text_nonempty_witness :
    (get_translation (fun _ => Except.error "timeout")
        "hola" "Spanish" "English").translated_text = apology ∧
    (get_translation (fun _ => Except.error "timeout")
        "hola" "Spanish" "English").translated_text ≠ "" :=
  fallback_translated_text_nonempty _ "hola" "Spanish" "English" "timeout" rfl

/-- C6: `get_translation` keeps no hidden state: with the `st.error`
surface threaded explicitly, the returned record does not depend on the
incoming log, so two calls with identical inputs against the same
deterministic remote yield identical `TranslationResponse` values. -/
theorem get_translation_stateless :
    ∀ (remote : Remote) (text source_lang target_lang : String)
      (errlog1 errlog2 : List String),
    (get_translation_st remote text source_lang target_lang errlog1).1
      = (get_translation_st remote text source_lang target_lang errlog2).1 ∧
    (get_translation_st remote text source_lang target_lang errlog1).1
      = get_translation remote text source_lang target_lang := by
  intro remote text source_lang target_lang errlog1 errlog2
  unfold get_translation_st get_translation
  cases remote (query source_lang target_lang text) <;> simp

/-- C7: empty `text` is not validated: the prompt is still composed as
`"Translate from {source_lang} to {target_lang}: "` and exactly one
remote call is issued with it. -/
theorem empty_text_passed_through :
    ∀ (remote : Remote) (source_lang target_lang : String),
    (get_translation_tr remote "" source_lang target_lang).2
        = [query source_lang target_lang ""] ∧
    query source_lang target_lang ""
        = "Translate from " ++ source_lang ++ " to " ++ target_lang ++ ": " := by
  intro remote source_lang target_lang
  refine ⟨?_, by simp [query]⟩
  unfold get_translation_tr
  cases h : remote (query source_lang target_lang "") <;> simp [h]

/-- C8: when the remote returns `translated_text = "perro"` for
`text = "dog"`, `source_lang = "English"`, `target_lang = "Spanish"`, the
assistant entry appended to the chat log carries the fixed attribution
text followed by `"perro"`, so it contains `"perro"`. -/
theorem assistant_entry_perro (remote : Remote) (history : List ChatMessage)
    (r : TranslationResponse)
    (hok : remote (query "English" "Spanish" "dog") = Except.ok r)
    (hperro : r.translated_text = "perro") :
    (process_submission remote history "dog" "English" "Spanish").getLast?
        = some { role := "assistant",
                 content := attributionText ++ "perro" } ∧
    ∃ msg pre, (process_submission remote history "dog" "English" "Spanish").getLast?
        = some msg ∧ msg.content = pre ++ "perro" := by
  have hcontent :
      process_submission remote history "dog" "English" "Spanish"
        = (history ++ [{ role := "user", content := "dog" }])
            ++ [{ role := "assistant", content := attributionText ++ "perro" }] := by
    simp [process_submission, formatted_response, get_translation, hok, hperro]
  refine ⟨?_, ?_⟩
  · rw [hcontent, List.getLast?_concat]
  · refine ⟨{ role := "assistant", content := attributionText ++ "perro" },
      attributionText, ?_, rfl⟩
    rw [hcontent, List.getLast?_concat]

/-- Witness for C8 at a concrete remote and the empty chat history. -/
theorem assistant_entry_perro_witness :
    (process_submission
        (fun _ => Except.ok
          { source_language := "English", target_language := "Spanish",
            translated_text := "perro", original_text := "dog" })
        [] "dog" "English" "Spanish").getLast?
      = some { role := "assistant",
               content := attributionText ++ "perro" } :=
  (assistant_entry_perro _ [] _ rfl rfl).1

/-- C9: `get_translation` never checks `source_lang` or `target_lang`
against the `languages` list: even for names outside the 17-entry list,
the same prompt is composed and the single remote call is issued with it. -/
theorem no_language_membership_check (remote : Remote)
    (text source_lang target_lang : String)
    (_hs : source_lang ∉ languages) (_ht : target_lang ∉ languages) :
    (get_translation_tr remote text source_lang target_lang).2
        = [query source_lang target_lang text] ∧
    (get_translation_tr remote text source_lang target_lang).1
        = get_translation remote text source_lang target_lang := by
  unfold get_translation_tr get_translation
  cases h : remote (query source_lang target_lang text) <;> simp [h]

/-- Witness for C9: `"Klingon"` and `"Elvish"` are not in the supported
list, yet the prompt is composed and sent exactly as for any language. -/
theorem no_language_membership_check_witness :
    "Klingon" ∉ languages ∧ "Elvish" ∉ languages ∧
    (get_translation_tr (fun _ => Except.error "x") "hi" "Klingon" "Elvish").2
        = [query "Klingon" "Elvish" "hi"] :=
  ⟨by decide, by decide,
   (no_language_membership_check (fun _ => Except.error "x") "hi" "Klingon" "Elvish"
      (by decide) (by decide)).1⟩

/-- C10: the assistant message is exactly the fixed attribution string
concatenated with `translated_text`, so two results with equal
`translated_text` yield the identical displayed entry regardless of their
other fields. -/
theorem formatted_response_only_translated_text :
    (∀ r : TranslationResponse,
        formatted_response r
          = "As Abdul Qadeer Trained Me The Translation Of This Line Will Be: "
              ++ r.translated_text) ∧
    (∀ r1 r2 : TranslationResponse,
        r1.translated_text = r2.translated_text →
        formatted_response r1 = formatted_response r2) := by
  refine ⟨fun r => rfl, fun r1 r2 h => ?_⟩
  simp [formatted_response, h]

/-- Witness for C10: two records differing in every field except
`translated_text` display identically. -/
theorem formatted_response_only_translated_text_witness :
    formatted_response
        { source_language := "English", target_language := "Spanish",
          translated_text := "perro", original_text := "dog" }
      = "As Abdul Qadeer Trained Me The Translation Of This Line Will Be: "
          ++ "perro" ∧
    formatted_response
        { source_language := "English", target_language := "Spanish",
          translated_text := "perro", original_text := "dog" }
      = formatted_response
        { source_language := "A", target_language := "B",
          translated_text := "perro", original_text := "C" } :=
  ⟨formatted_response_only_translated_text.1 _,
   formatted_response_only_translated_text.2 _ _ rfl⟩

end Translator
